import Mathlib

/-!
Verification of the UDP-socket seam in `automap/src/comm_layer/pcp_pmp_common.rs`:
the `UdpSocketWrapper` trait, its real pass-through adapter `UdpSocketReal`, and
the scripted test doubles `UdpSocketMock`, `UdpSocketFactoryMock` and
`FreePortFactoryMock`.

Modelling conventions:
- `std::net::SocketAddr` is modelled as an IPv4 address/port record.
- `io::Error` is modelled as an opaque record carrying a numeric kind.
- `std::time::Duration` is modelled as a number of milliseconds.
- `io::Result T` is `Except IoError T`.
- A Rust panic (a `Vec::remove` on an empty vector, or an out-of-bounds slice
  index in the byte-copy loop) is modelled as the `none` outcome of a call:
  the call produces no return value.  The post-state of the double is still
  reported, because the parameter-capture sinks are `Arc`-shared with the
  test and survive the unwinding.
- Mock methods take the receiver by `&self` and mutate interior state
  (`RefCell`/`Mutex`); here they are state-passing functions
  `state → args → state × Option result`.
-/

namespace Automap

/-- Model of `std::net::SocketAddr` (IPv4 form: four octets and a port). -/
structure SocketAddr where
  ip0 : Nat
  ip1 : Nat
  ip2 : Nat
  ip3 : Nat
  port : Nat
  deriving DecidableEq, Repr

/-- Model of `std::io::Error`: an opaque value distinguished by a numeric kind. -/
structure IoError where
  kind : Nat
  deriving DecidableEq, Repr

/-- Model of `std::time::Duration` in milliseconds. -/
abbrev Duration := Nat

/-- Model of `std::io::Result T`. -/
abbrev IoResult (α : Type) := Except IoError α

/-- State of `UdpSocketMock`: one parameter-capture sink and one result queue
per trait operation, exactly the six fields of the Rust struct.  Note that
`recv_from_params` is `Vec<()>` in the source: the buffer argument is not
recorded, only a unit marker per call. -/
structure UdpSocketMock where
  recvFromParams : List Unit
  recvFromResults : List (IoResult (Nat × SocketAddr) × List Nat)
  sendToParams : List (List Nat × SocketAddr)
  sendToResults : List (IoResult Nat)
  setReadTimeoutParams : List (Option Duration)
  setReadTimeoutResults : List (IoResult Unit)
  deriving Repr

/-- Constructor `UdpSocketMock::new`: all sinks and queues empty. -/
def UdpSocketMock.new : UdpSocketMock :=
  ⟨[], [], [], [], [], []⟩

/-- Builder `UdpSocketMock::recv_from_result`: pushes one scripted
(result, bytes) pair onto the back of the `recv_from` queue. -/
def UdpSocketMock.recvFromResult (s : UdpSocketMock)
    (result : IoResult (Nat × SocketAddr)) (bytes : List Nat) : UdpSocketMock :=
  { s with recvFromResults := s.recvFromResults ++ [(result, bytes)] }

/-- Builder `UdpSocketMock::send_to_result`. -/
def UdpSocketMock.sendToResult (s : UdpSocketMock) (result : IoResult Nat) :
    UdpSocketMock :=
  { s with sendToResults := s.sendToResults ++ [result] }

/-- Builder `UdpSocketMock::set_read_timeout_result`. -/
def UdpSocketMock.setReadTimeoutResult (s : UdpSocketMock) (result : IoResult Unit) :
    UdpSocketMock :=
  { s with setReadTimeoutResults := s.setReadTimeoutResults ++ [result] }

/-- The byte-copy loop of `UdpSocketMock::recv_from`:
`for n in 0..bytes.len() { buf[n] = bytes[n]; }`.
Walks the scripted bytes, writing each at the next index of the caller's
buffer; indexing past the buffer's end is the Rust out-of-bounds panic,
modelled as `none`. -/
def writeAll : List Nat → Nat → List Nat → Option (List Nat)
  | [], _, buf => some buf
  | b :: bs, n, buf =>
      if n < buf.length then writeAll bs (n + 1) (buf.set n b) else none

/-- One call to one of the three `UdpSocketWrapper` operations of the mock. -/
inductive SockCall where
  | recvFrom (buf : List Nat)
  | sendTo (buf : List Nat) (addr : SocketAddr)
  | setReadTimeout (dur : Option Duration)
  deriving Repr

/-- The value returned by one successful mock call; a `recvRes` carries the
caller's buffer as mutated by the copy loop. -/
inductive SockRes where
  | recvRes (r : IoResult (Nat × SocketAddr)) (buf : List Nat)
  | sendRes (r : IoResult Nat)
  | timeoutRes (r : IoResult Unit)
  deriving Repr

/-- One invocation on `UdpSocketMock`, following the source order of effects:
push onto the operation's parameter sink, `remove(0)` from its result queue
(panic if empty), for `recv_from` run the byte-copy loop (panic if the buffer
is too short), return the dequeued result. -/
def step (s : UdpSocketMock) : SockCall → UdpSocketMock × Option SockRes
  | .recvFrom buf =>
      match s.recvFromResults with
      | [] => ({ s with recvFromParams := s.recvFromParams ++ [()] }, none)
      | (result, bytes) :: rest =>
          let s2 : UdpSocketMock :=
            { s with recvFromParams := s.recvFromParams ++ [()],
                     recvFromResults := rest }
          match writeAll bytes 0 buf with
          | none => (s2, none)
          | some buf2 => (s2, some (.recvRes result buf2))
  | .sendTo buf addr =>
      let s1 : UdpSocketMock :=
        { s with sendToParams := s.sendToParams ++ [(buf, addr)] }
      match s1.sendToResults with
      | [] => (s1, none)
      | r :: rest => ({ s1 with sendToResults := rest }, some (.sendRes r))
  | .setReadTimeout dur =>
      let s1 : UdpSocketMock :=
        { s with setReadTimeoutParams := s.setReadTimeoutParams ++ [dur] }
      match s1.setReadTimeoutResults with
      | [] => (s1, none)
      | r :: rest => ({ s1 with setReadTimeoutResults := rest }, some (.timeoutRes r))

/-- Run a sequence of calls on the mock; `none` as soon as any call panics. -/
def run (s : UdpSocketMock) : List SockCall → Option (List SockRes × UdpSocketMock)
  | [] => some ([], s)
  | c :: cs =>
      match step s c with
      | (_, none) => none
      | (s1, some r) =>
          match run s1 cs with
          | none => none
          | some (rs, s2) => some (r :: rs, s2)

/-- State of `UdpSocketFactoryMock`: the `make` parameter sink and result
queue.  A queued success holds a ready `UdpSocketMock` state. -/
structure UdpSocketFactoryMock where
  makeParams : List SocketAddr
  makeResults : List (IoResult UdpSocketMock)
  deriving Repr

/-- Constructor `UdpSocketFactoryMock::new`. -/
def UdpSocketFactoryMock.new : UdpSocketFactoryMock := ⟨[], []⟩

/-- Builder `UdpSocketFactoryMock::make_result`. -/
def UdpSocketFactoryMock.makeResult (f : UdpSocketFactoryMock)
    (result : IoResult UdpSocketMock) : UdpSocketFactoryMock :=
  { f with makeResults := f.makeResults ++ [result] }

/-- Operation `UdpSocketFactoryMock::make`: push the address onto the sink,
`remove(0)` the queued result (panic if empty), and return
`Ok(Box::new(result?))`: a queued success is re-wrapped in `Ok`, a queued
failure is propagated by the `?` operator.  No OS bind occurs. -/
def UdpSocketFactoryMock.make (f : UdpSocketFactoryMock) (addr : SocketAddr) :
    UdpSocketFactoryMock × Option (IoResult UdpSocketMock) :=
  let f1 : UdpSocketFactoryMock := { f with makeParams := f.makeParams ++ [addr] }
  match f1.makeResults with
  | [] => (f1, none)
  | r :: rest =>
      ({ f1 with makeResults := rest },
       match r with
       | .ok m => some (.ok m)
       | .error e => some (.error e))

/-- State of `FreePortFactoryMock`: only a result queue of port numbers
(`u16` modelled as `Nat`); the struct has no parameter sink. -/
structure FreePortFactoryMock where
  makeResults : List Nat
  deriving DecidableEq, Repr

/-- Constructor `FreePortFactoryMock::new`. -/
def FreePortFactoryMock.new : FreePortFactoryMock := ⟨[]⟩

/-- Builder `FreePortFactoryMock::make_result`. -/
def FreePortFactoryMock.makeResult (f : FreePortFactoryMock) (result : Nat) :
    FreePortFactoryMock :=
  ⟨f.makeResults ++ [result]⟩

/-- Operation `FreePortFactoryMock::make`: `remove(0)` from the queue (panic if
empty); nothing is recorded. -/
def FreePortFactoryMock.make (f : FreePortFactoryMock) :
    FreePortFactoryMock × Option Nat :=
  match f.makeResults with
  | [] => (f, none)
  | p :: rest => (⟨rest⟩, some p)

/-- Model of the external OS handle `std::net::UdpSocket` as an abstract
record of behaviours: whatever each operation would return (for `recv_from`,
also the buffer contents it would leave behind).  The OS implementation is
outside this repository; the adapter claims only concern delegation to it. -/
structure UdpSocket where
  recvFrom : List Nat → IoResult (Nat × SocketAddr) × List Nat
  sendTo : List Nat → SocketAddr → IoResult Nat
  setReadTimeout : Option Duration → IoResult Unit

/-- Adapter `UdpSocketReal`: owns exactly one delegate OS handle. -/
structure UdpSocketReal where
  delegate : UdpSocket

/-- Operation `UdpSocketReal::recv_from`: `self.delegate.recv_from(buf)`. -/
def UdpSocketReal.recvFrom (s : UdpSocketReal) (buf : List Nat) :
    IoResult (Nat × SocketAddr) × List Nat :=
  s.delegate.recvFrom buf

/-- Operation `UdpSocketReal::send_to`: `self.delegate.send_to(buf, addr)`. -/
def UdpSocketReal.sendTo (s : UdpSocketReal) (buf : List Nat) (addr : SocketAddr) :
    IoResult Nat :=
  s.delegate.sendTo buf addr

/-- Operation `UdpSocketReal::set_read_timeout`: delegate `set_read_timeout(dur)`. -/
def UdpSocketReal.setReadTimeout (s : UdpSocketReal) (dur : Option Duration) :
    IoResult Unit :=
  s.delegate.setReadTimeout dur

/-- Number of `send_to` calls in a call sequence. -/
def sendCount : List SockCall → Nat
  | [] => 0
  | .sendTo _ _ :: cs => sendCount cs + 1
  | _ :: cs => sendCount cs

/-- Number of `recv_from` calls in a call sequence. -/
def recvCount : List SockCall → Nat
  | [] => 0
  | .recvFrom _ :: cs => recvCount cs + 1
  | _ :: cs => recvCount cs

/-- Number of `set_read_timeout` calls in a call sequence. -/
def timeoutCount : List SockCall → Nat
  | [] => 0
  | .setReadTimeout _ :: cs => timeoutCount cs + 1
  | _ :: cs => timeoutCount cs

/-- The arguments of the `send_to` calls of a sequence, in call order. -/
def sendArgsOf : List SockCall → List (List Nat × SocketAddr)
  | [] => []
  | .sendTo buf addr :: cs => (buf, addr) :: sendArgsOf cs
  | _ :: cs => sendArgsOf cs

/-- The values returned by the `send_to` calls of a run, in call order. -/
def sendResultsOf : List SockRes → List (IoResult Nat)
  | [] => []
  | .sendRes r :: rs => r :: sendResultsOf rs
  | _ :: rs => sendResultsOf rs

/-- The results returned by the `recv_from` calls of a run, in call order. -/
def recvResultsOf : List SockRes → List (IoResult (Nat × SocketAddr))
  | [] => []
  | .recvRes r _ :: rs => r :: recvResultsOf rs
  | _ :: rs => recvResultsOf rs

/-- The values returned by the `set_read_timeout` calls of a run, in order. -/
def timeoutResultsOf : List SockRes → List (IoResult Unit)
  | [] => []
  | .timeoutRes r :: rs => r :: timeoutResultsOf rs
  | _ :: rs => timeoutResultsOf rs

/-- Run a sequence of `make` calls on the socket-factory mock. -/
def factoryRun (f : UdpSocketFactoryMock) :
    List SocketAddr → Option (List (IoResult UdpSocketMock) × UdpSocketFactoryMock)
  | [] => some ([], f)
  | a :: rest =>
      match f.make a with
      | (_, none) => none
      | (f1, some r) =>
          match factoryRun f1 rest with
          | none => none
          | some (rs, f2) => some (r :: rs, f2)

/-- Run `n` `make` calls on the free-port-factory mock. -/
def freePortRun (f : FreePortFactoryMock) :
    Nat → Option (List Nat × FreePortFactoryMock)
  | 0 => some ([], f)
  | n + 1 =>
      match f.make with
      | (_, none) => none
      | (f1, some p) =>
          match freePortRun f1 n with
          | none => none
          | some (ps, f2) => some (p :: ps, f2)

/-- Core playback invariant of `UdpSocketMock`: in any successful run, each
operation's returned results are exactly the prefix of its own initial result
queue of length its call count, the remaining queue is the matching suffix,
and the `send_to` sink has grown by exactly the `send_to` arguments in call
order.  Each operation touches only its own queue, so interleaved calls to
the other operations do not disturb it. -/
theorem run_spec (cs : List SockCall) :
    ∀ (s : UdpSocketMock) (rs : List SockRes) (s2 : UdpSocketMock),
      run s cs = some (rs, s2) →
      sendResultsOf rs = s.sendToResults.take (sendCount cs)
      ∧ s2.sendToResults = s.sendToResults.drop (sendCount cs)
      ∧ recvResultsOf rs = (s.recvFromResults.take (recvCount cs)).map Prod.fst
      ∧ s2.recvFromResults = s.recvFromResults.drop (recvCount cs)
      ∧ timeoutResultsOf rs = s.setReadTimeoutResults.take (timeoutCount cs)
      ∧ s2.setReadTimeoutResults = s.setReadTimeoutResults.drop (timeoutCount cs)
      ∧ s2.sendToParams = s.sendToParams ++ sendArgsOf cs := by
  induction cs with
  | nil =>
      intro s rs s2 h
      simp only [run, Option.some.injEq, Prod.mk.injEq] at h
      obtain ⟨hrs, hs⟩ := h
      subst hrs; subst hs
      simp [sendResultsOf, recvResultsOf, timeoutResultsOf, sendCount,
        recvCount, timeoutCount, sendArgsOf]
  | cons c cs ih =>
      intro s rs s2 h
      cases c with
      | sendTo buf addr =>
          cases hq : s.sendToResults with
          | nil => simp [run, step, hq] at h
          | cons r rest =>
              simp only [run, step, hq] at h
              split at h
              · exact absurd h (by simp)
              · rename_i rs1 s1 heq
                simp only [Option.some.injEq, Prod.mk.injEq] at h
                obtain ⟨hrs, hs⟩ := h
                subst hrs; subst hs
                obtain ⟨h1, h2, h3, h4, h5, h6, h7⟩ := ih _ _ _ heq
                refine ⟨?_, ?_, ?_, ?_, ?_, ?_, ?_⟩ <;>
                  simp_all [sendResultsOf, recvResultsOf, timeoutResultsOf,
                    sendCount, recvCount, timeoutCount, sendArgsOf, hq]
      | setReadTimeout dur =>
          cases hq : s.setReadTimeoutResults with
          | nil => simp [run, step, hq] at h
          | cons r rest =>
              simp only [run, step, hq] at h
              split at h
              · exact absurd h (by simp)
              · rename_i rs1 s1 heq
                simp only [Option.some.injEq, Prod.mk.injEq] at h
                obtain ⟨hrs, hs⟩ := h
                subst hrs; subst hs
                obtain ⟨h1, h2, h3, h4, h5, h6, h7⟩ := ih _ _ _ heq
                refine ⟨?_, ?_, ?_, ?_, ?_, ?_, ?_⟩ <;>
                  simp_all [sendResultsOf, recvResultsOf, timeoutResultsOf,
                    sendCount, recvCount, timeoutCount, sendArgsOf, hq]
      | recvFrom buf =>
          cases hq : s.recvFromResults with
          | nil => simp [run, step, hq] at h
          | cons p rest =>
              obtain ⟨r, bytes⟩ := p
              cases hw : writeAll bytes 0 buf with
              | none => simp [run, step, hq, hw] at h
              | some buf2 =>
                  simp only [run, step, hq, hw] at h
                  split at h
                  · exact absurd h (by simp)
                  · rename_i rs1 s1 heq
                    simp only [Option.some.injEq, Prod.mk.injEq] at h
                    obtain ⟨hrs, hs⟩ := h
                    subst hrs; subst hs
                    obtain ⟨h1, h2, h3, h4, h5, h6, h7⟩ := ih _ _ _ heq
                    refine ⟨?_, ?_, ?_, ?_, ?_, ?_, ?_⟩ <;>
                      simp_all [sendResultsOf, recvResultsOf, timeoutResultsOf,
                        sendCount, recvCount, timeoutCount, sendArgsOf, hq]

/-- The value `UdpSocketFactoryMock::make` returns on a non-empty queue is
the dequeued entry itself: `Ok(Box::new(r?))` is the identity on `r`. -/
theorem make_rewrap (r : IoResult UdpSocketMock) :
    (match r with
     | .ok m => some (Except.ok m)
     | .error e => some (Except.error e)) = some r := by
  cases r <;> rfl

/-- Playback invariant of the socket-factory mock: a successful run of `make`
calls returns exactly the prefix of the initial result queue, leaves the
matching suffix queued, and appends the addresses to the sink in call order. -/
theorem factoryRun_spec (addrs : List SocketAddr) :
    ∀ (f : UdpSocketFactoryMock) (rs : List (IoResult UdpSocketMock))
      (f2 : UdpSocketFactoryMock),
      factoryRun f addrs = some (rs, f2) →
      rs = f.makeResults.take addrs.length
      ∧ f2.makeResults = f.makeResults.drop addrs.length
      ∧ f2.makeParams = f.makeParams ++ addrs := by
  induction addrs with
  | nil =>
      intro f rs f2 h
      simp only [factoryRun, Option.some.injEq, Prod.mk.injEq] at h
      obtain ⟨hrs, hf⟩ := h
      subst hrs; subst hf
      simp
  | cons a rest ih =>
      intro f rs f2 h
      cases hq : f.makeResults with
      | nil => simp [factoryRun, UdpSocketFactoryMock.make, hq] at h
      | cons r rq =>
          simp only [factoryRun, UdpSocketFactoryMock.make, hq, make_rewrap] at h
          split at h
          · exact absurd h (by simp)
          · rename_i rs1 f1 heq
            simp only [Option.some.injEq, Prod.mk.injEq] at h
            obtain ⟨hrs, hf⟩ := h
            subst hrs; subst hf
            obtain ⟨h1, h2, h3⟩ := ih _ _ _ heq
            refine ⟨?_, ?_, ?_⟩ <;> simp_all

/-- Playback invariant of the free-port-factory mock: a successful run of `n`
`make` calls returns the first `n` queued ports and leaves the rest queued. -/
theorem freePortRun_spec (n : Nat) :
    ∀ (f : FreePortFactoryMock) (ps : List Nat) (f2 : FreePortFactoryMock),
      freePortRun f n = some (ps, f2) →
      ps = f.makeResults.take n ∧ f2.makeResults = f.makeResults.drop n := by
  induction n with
  | zero =>
      intro f ps f2 h
      simp only [freePortRun, Option.some.injEq, Prod.mk.injEq] at h
      obtain ⟨hps, hf⟩ := h
      subst hps; subst hf
      simp
  | succ n ih =>
      intro f ps f2 h
      cases hq : f.makeResults with
      | nil => simp [freePortRun, FreePortFactoryMock.make, hq] at h
      | cons p rq =>
          simp only [freePortRun, FreePortFactoryMock.make, hq] at h
          split at h
          · exact absurd h (by simp)
          · rename_i ps1 f1 heq
            simp only [Option.some.injEq, Prod.mk.injEq] at h
            obtain ⟨hps, hf⟩ := h
            subst hps; subst hf
            obtain ⟨h1, h2⟩ := ih _ _ _ heq
            refine ⟨?_, ?_⟩ <;> simp_all

/-- The `recv_from` sink grows by one unit marker on every invocation,
whatever the queue contents and whether or not the call panics. -/
theorem step_recvFromParams (s : UdpSocketMock) (buf : List Nat) :
    (step s (.recvFrom buf)).1.recvFromParams = s.recvFromParams ++ [()] := by
  cases hq : s.recvFromResults with
  | nil => simp [step, hq]
  | cons p rest =>
      obtain ⟨r, bytes⟩ := p
      cases hw : writeAll bytes 0 buf <;> simp [step, hq, hw]

/-- The `send_to` sink grows by the call's (bytes, address) pair on every
invocation, whatever the queue contents. -/
theorem step_sendToParams (s : UdpSocketMock) (buf : List Nat) (addr : SocketAddr) :
    (step s (.sendTo buf addr)).1.sendToParams = s.sendToParams ++ [(buf, addr)] := by
  cases hq : s.sendToResults with
  | nil => simp [step, hq]
  | cons r rest => simp [step, hq]

/-- The `set_read_timeout` sink grows by the call's duration on every
invocation, whatever the queue contents. -/
theorem step_setReadTimeoutParams (s : UdpSocketMock) (dur : Option Duration) :
    (step s (.setReadTimeout dur)).1.setReadTimeoutParams
      = s.setReadTimeoutParams ++ [dur] := by
  cases hq : s.setReadTimeoutResults with
  | nil => simp [step, hq]
  | cons r rest => simp [step, hq]

/-- The factory's `make` sink grows by the call's address on every
invocation, whatever the queue contents. -/
theorem make_makeParams (f : UdpSocketFactoryMock) (addr : SocketAddr) :
    (f.make addr).1.makeParams = f.makeParams ++ [addr] := by
  cases hq : f.makeResults with
  | nil => simp [UdpSocketFactoryMock.make, hq]
  | cons r rest => simp [UdpSocketFactoryMock.make, hq]

/-- When the remaining scripted bytes fit into the buffer, the copy loop
succeeds and the output agrees with the bytes on the written window and with
the original buffer everywhere else. -/
theorem writeAll_some :
    ∀ (bytes : List Nat) (n : Nat) (buf : List Nat),
      n + bytes.length ≤ buf.length →
      ∃ out, writeAll bytes n buf = some out
        ∧ out.length = buf.length
        ∧ (∀ i, i < n → out[i]? = buf[i]?)
        ∧ (∀ i, n ≤ i → i < n + bytes.length → out[i]? = bytes[i - n]?)
        ∧ (∀ i, n + bytes.length ≤ i → out[i]? = buf[i]?)
  | [], n, buf, _ => by
      refine ⟨buf, rfl, rfl, fun i _ => rfl, fun i h1 h2 => ?_, fun i _ => rfl⟩
      simp only [List.length_nil, Nat.add_zero] at h2
      omega
  | b :: bs, n, buf, h => by
      have hn : n < buf.length := by
        simp only [List.length_cons] at h; omega
      have hrec : (n + 1) + bs.length ≤ (buf.set n b).length := by
        simp only [List.length_set, List.length_cons] at h ⊢; omega
      obtain ⟨out, hw, hlen, hlow, hmid, hhigh⟩ := writeAll_some bs (n + 1) (buf.set n b) hrec
      refine ⟨out, ?_, ?_, ?_, ?_, ?_⟩
      · simp only [writeAll, hn, if_true]
        exact hw
      · rw [hlen, List.length_set]
      · intro i hi
        rw [hlow i (by omega), List.getElem?_set_ne (by omega)]
      · intro i h1 h2
        rcases Nat.eq_or_lt_of_le h1 with heq | hlt
        · rw [← heq, hlow n (by omega), List.getElem?_set_eq_of_lt b hn,
            Nat.sub_self, List.getElem?_cons_zero]
        · have hi1 : n + 1 ≤ i := hlt
          have : i - n = (i - (n + 1)) + 1 := by omega
          rw [hmid i hi1 (by simp only [List.length_cons] at h2; omega), this,
            List.getElem?_cons_succ]
      · intro i hi
        rw [hhigh i (by simp only [List.length_cons] at hi; omega),
          List.getElem?_set_ne (by simp only [List.length_cons] at hi; omega)]

/-- When the scripted bytes do not fit into the buffer, the copy loop indexes
past the buffer's end: the Rust out-of-bounds panic, modelled as `none`. -/
theorem writeAll_none :
    ∀ (bytes : List Nat) (n : Nat) (buf : List Nat),
      buf.length < n + bytes.length → bytes ≠ [] →
      writeAll bytes n buf = none
  | [], _, _, _, hne => absurd rfl hne
  | b :: bs, n, buf, h, _ => by
      by_cases hn : n < buf.length
      · simp only [writeAll, hn, if_true]
        cases bs with
        | nil => simp only [List.length_cons, List.length_nil] at h; omega
        | cons b2 bs2 =>
            exact writeAll_none (b2 :: bs2) (n + 1) (buf.set n b)
              (by simp only [List.length_set, List.length_cons] at h ⊢; omega)
              (by simp)
      · simp only [writeAll, hn, if_false]

/-- A sample address for concrete instances. -/
def addrA : SocketAddr := ⟨192, 168, 0, 1, 5000⟩

/-- The address 127.0.0.1:9999 of the end-to-end send scenario. -/
def addr9999 : SocketAddr := ⟨127, 0, 0, 1, 9999⟩

/-- C1: for every scripted double operation (`recv_from`, `send_to`,
`set_read_timeout` on the socket mock; `make` on the socket-factory and
free-port-factory mocks) and every sequence of results queued on that
operation, the Nth invocation of that operation returns the Nth queued
result, in FIFO order, regardless of how many times the other operations
have been called: in any successful interleaved run, the list of results
returned by an operation is exactly the prefix of its own initial queue of
length its call count. -/
theorem c1_fifo_playback
    (s : UdpSocketMock) (cs : List SockCall) (rs : List SockRes)
    (s2 : UdpSocketMock) (h : run s cs = some (rs, s2))
    (f : UdpSocketFactoryMock) (addrs : List SocketAddr)
    (frs : List (IoResult UdpSocketMock)) (f2 : UdpSocketFactoryMock)
    (hf : factoryRun f addrs = some (frs, f2))
    (p : FreePortFactoryMock) (n : Nat) (ps : List Nat)
    (p2 : FreePortFactoryMock) (hp : freePortRun p n = some (ps, p2)) :
    sendResultsOf rs = s.sendToResults.take (sendCount cs)
    ∧ recvResultsOf rs = (s.recvFromResults.take (recvCount cs)).map Prod.fst
    ∧ timeoutResultsOf rs = s.setReadTimeoutResults.take (timeoutCount cs)
    ∧ frs = f.makeResults.take addrs.length
    ∧ ps = p.makeResults.take n := by
  obtain ⟨h1, _, h3, _, h5, _, _⟩ := run_spec cs s rs s2 h
  obtain ⟨hf1, _, _⟩ := factoryRun_spec addrs f frs f2 hf
  obtain ⟨hp1, _⟩ := freePortRun_spec n p ps p2 hp
  exact ⟨h1, h3, h5, hf1, hp1⟩

/-- A socket mock scripted with two send results, one recv result and one
timeout result. -/
def c1mock : UdpSocketMock :=
  ((((UdpSocketMock.new.sendToResult (.ok 1)).sendToResult
    (.ok 2)).recvFromResult (.ok (1, addrA)) [7]).setReadTimeoutResult (.ok ()))

/-- An interleaved call sequence: send, recv, timeout, send. -/
def c1calls : List SockCall :=
  [.sendTo [1] addrA, .recvFrom [0, 0], .setReadTimeout (some 5),
   .sendTo [2] addrA]

/-- The results `c1calls` produces on `c1mock`. -/
def c1results : List SockRes :=
  [.sendRes (.ok 1), .recvRes (.ok (1, addrA)) [7, 0], .timeoutRes (.ok ()),
   .sendRes (.ok 2)]

/-- A factory mock scripted with one bind failure. -/
def c1factory : UdpSocketFactoryMock :=
  UdpSocketFactoryMock.new.makeResult (.error ⟨3⟩)

/-- A free-port mock scripted with one port. -/
def c1ports : FreePortFactoryMock := FreePortFactoryMock.new.makeResult 4242

/-- C1 witness: the FIFO playback property evaluated on a concrete
interleaved run of all five scripted operations. -/
theorem c1_fifo_playback_witness :
    sendResultsOf c1results = c1mock.sendToResults.take (sendCount c1calls)
    ∧ recvResultsOf c1results
        = (c1mock.recvFromResults.take (recvCount c1calls)).map Prod.fst
    ∧ timeoutResultsOf c1results
        = c1mock.setReadTimeoutResults.take (timeoutCount c1calls)
    ∧ [Except.error ⟨3⟩] = c1factory.makeResults.take [addrA].length
    ∧ [4242] = c1ports.makeResults.take 1 :=
  c1_fifo_playback c1mock c1calls c1results _ rfl
    c1factory [addrA] [.error ⟨3⟩] _ rfl
    c1ports 1 [4242] _ rfl

/-- C2: invoking any scripted operation whose result queue is empty panics
immediately (modelled as the `none` outcome); it never returns a default or
fallback value. -/
theorem c2_empty_queue_panics
    (s1 : UdpSocketMock) (buf : List Nat) (h1 : s1.recvFromResults = [])
    (s2 : UdpSocketMock) (bufS : List Nat) (addr : SocketAddr)
    (h2 : s2.sendToResults = [])
    (s3 : UdpSocketMock) (dur : Option Duration)
    (h3 : s3.setReadTimeoutResults = [])
    (f : UdpSocketFactoryMock) (addrF : SocketAddr) (hf : f.makeResults = [])
    (p : FreePortFactoryMock) (hp : p.makeResults = []) :
    (step s1 (.recvFrom buf)).2 = none
    ∧ (step s2 (.sendTo bufS addr)).2 = none
    ∧ (step s3 (.setReadTimeout dur)).2 = none
    ∧ (f.make addrF).2 = none
    ∧ p.make.2 = none := by
  refine ⟨?_, ?_, ?_, ?_, ?_⟩ <;>
    simp [step, UdpSocketFactoryMock.make, FreePortFactoryMock.make,
      h1, h2, h3, hf, hp]

/-- C2 witness: fresh doubles with nothing queued panic on every operation. -/
theorem c2_empty_queue_panics_witness :
    (step UdpSocketMock.new (.recvFrom [0])).2 = none
    ∧ (step UdpSocketMock.new (.sendTo [1] addrA)).2 = none
    ∧ (step UdpSocketMock.new (.setReadTimeout none)).2 = none
    ∧ (UdpSocketFactoryMock.new.make addrA).2 = none
    ∧ FreePortFactoryMock.new.make.2 = none :=
  c2_empty_queue_panics UdpSocketMock.new [0] rfl UdpSocketMock.new [1] addrA
    rfl UdpSocketMock.new none rfl UdpSocketFactoryMock.new addrA rfl
    FreePortFactoryMock.new rfl

/-- C3: a scripted `recv_from` whose queued payload fits in the caller's
buffer copies exactly the payload to offset 0 and leaves every byte at an
index at or beyond the payload length unchanged. -/
theorem c3_recv_copies_prefix
    (s : UdpSocketMock) (r : IoResult (Nat × SocketAddr)) (bytes : List Nat)
    (rest : List (IoResult (Nat × SocketAddr) × List Nat)) (buf : List Nat)
    (hq : s.recvFromResults = (r, bytes) :: rest)
    (hlen : bytes.length ≤ buf.length) :
    ∃ out, (step s (.recvFrom buf)).2 = some (.recvRes r out)
      ∧ out.length = buf.length
      ∧ (∀ i, i < bytes.length → out[i]? = bytes[i]?)
      ∧ (∀ i, bytes.length ≤ i → out[i]? = buf[i]?) := by
  obtain ⟨out, hw, hlenq, hlow, hmid, hhigh⟩ :=
    writeAll_some bytes 0 buf (by omega)
  refine ⟨out, ?_, hlenq, ?_, ?_⟩
  · simp [step, hq, hw]
  · intro i hi
    simpa using hmid i (Nat.zero_le i) (by omega)
  · intro i hi
    exact hhigh i (by omega)

/-- C3 witness: payload [7, 8] into buffer [0, 0, 0] gives [7, 8, 0]. -/
theorem c3_recv_copies_prefix_witness :
    ∃ out,
      (step (UdpSocketMock.new.recvFromResult (.ok (2, addrA)) [7, 8])
        (.recvFrom [0, 0, 0])).2 = some (.recvRes (.ok (2, addrA)) out)
      ∧ out.length = [0, 0, 0].length
      ∧ (∀ i, i < [7, 8].length → out[i]? = [7, 8][i]?)
      ∧ (∀ i, [7, 8].length ≤ i → out[i]? = [0, 0, 0][i]?) :=
  c3_recv_copies_prefix (UdpSocketMock.new.recvFromResult (.ok (2, addrA)) [7, 8])
    (.ok (2, addrA)) [7, 8] [] [0, 0, 0] rfl (by decide)

/-- A socket mock scripted with a two-byte payload. -/
def c4mock : UdpSocketMock :=
  UdpSocketMock.new.recvFromResult (.ok (2, addrA)) [1, 2]

/-- C4 counterexample: with payload [1, 2] queued and a one-byte buffer, the
claim predicts a truncating copy (the call would succeed, the buffer holding
[1]); instead the copy loop `for n in 0..bytes.len()` indexes the buffer at
1, past its end, and the call panics: no value is returned at all. -/
theorem c4_counterexample :
    (step c4mock (.recvFrom [0])).2 = none ∧ writeAll [1, 2] 0 [0] = none :=
  ⟨rfl, rfl⟩

/-- C4 amended: when the queued payload is strictly longer than the caller's
buffer, the scripted `recv_from` does not truncate; the byte-copy loop
indexes past the buffer's end and the call panics (no result). -/
theorem c4_oversized_recv_panics
    (s : UdpSocketMock) (r : IoResult (Nat × SocketAddr)) (bytes : List Nat)
    (rest : List (IoResult (Nat × SocketAddr) × List Nat)) (buf : List Nat)
    (hq : s.recvFromResults = (r, bytes) :: rest)
    (hlen : buf.length < bytes.length) :
    (step s (.recvFrom buf)).2 = none := by
  have hne : bytes ≠ [] := by
    intro hcon
    subst hcon
    simp at hlen
  have hw := writeAll_none bytes 0 buf (by omega) hne
  simp [step, hq, hw]

/-- C4 amended witness: payload [1, 2] into an empty buffer panics. -/
theorem c4_oversized_recv_panics_witness :
    (step c4mock (.recvFrom [])).2 = none :=
  c4_oversized_recv_panics c4mock (.ok (2, addrA)) [1, 2] [] [] rfl (by decide)

/-- C5: over any successful run, the `send_to` sink grows by exactly the
`send_to` arguments in invocation order, captured by value; and in the
end-to-end scenario, queueing `Ok(4)` and sending [1, 2, 3, 4] to
127.0.0.1:9999 returns `Ok(4)` and leaves the sink holding exactly that one
(bytes, address) entry. -/
theorem c5_send_capture
    (s : UdpSocketMock) (cs : List SockCall) (rs : List SockRes)
    (s2 : UdpSocketMock) (h : run s cs = some (rs, s2)) :
    s2.sendToParams = s.sendToParams ++ sendArgsOf cs
    ∧ (step (UdpSocketMock.new.sendToResult (.ok 4))
        (.sendTo [1, 2, 3, 4] addr9999)).2 = some (.sendRes (.ok 4))
    ∧ (step (UdpSocketMock.new.sendToResult (.ok 4))
        (.sendTo [1, 2, 3, 4] addr9999)).1.sendToParams
        = [([1, 2, 3, 4], addr9999)] := by
  obtain ⟨_, _, _, _, _, _, h7⟩ := run_spec cs s rs s2 h
  exact ⟨h7, rfl, rfl⟩

/-- C5 witness: the capture property evaluated on a one-send run; the final
state of the run is written out explicitly. -/
theorem c5_send_capture_witness :
    (⟨[], [], [([1, 2, 3, 4], addr9999)], [], [], []⟩ :
        UdpSocketMock).sendToParams
      = (UdpSocketMock.new.sendToResult (.ok 4)).sendToParams
        ++ sendArgsOf [SockCall.sendTo [1, 2, 3, 4] addr9999]
    ∧ (step (UdpSocketMock.new.sendToResult (.ok 4))
        (.sendTo [1, 2, 3, 4] addr9999)).2 = some (.sendRes (.ok 4))
    ∧ (step (UdpSocketMock.new.sendToResult (.ok 4))
        (.sendTo [1, 2, 3, 4] addr9999)).1.sendToParams
        = [([1, 2, 3, 4], addr9999)] :=
  c5_send_capture (UdpSocketMock.new.sendToResult (.ok 4))
    [SockCall.sendTo [1, 2, 3, 4] addr9999]
    [SockRes.sendRes (.ok 4)]
    ⟨[], [], [([1, 2, 3, 4], addr9999)], [], [], []⟩ rfl

/-- A socket mock scripted with one empty-payload recv result. -/
def c6mock : UdpSocketMock :=
  UdpSocketMock.new.recvFromResult (.ok (0, addrA)) []

/-- C6 counterexample: the claim says the socket mock records `recv_from`'s
buffer argument, but `recv_from_params` is `Vec<()>`: a call records only a
unit marker, and two calls with different buffers leave bit-identical mock
states, so the buffer argument is nowhere recorded. -/
theorem c6_counterexample :
    (step c6mock (.recvFrom [9, 9, 9])).1.recvFromParams = [()]
    ∧ (step c6mock (.recvFrom [9, 9, 9])).1 = (step c6mock (.recvFrom [4])).1 :=
  ⟨rfl, rfl⟩

/-- C6 amended: on every invocation the socket mock appends one entry to the
invoked operation's sink — for `recv_from` a unit marker only (the buffer
argument is not recorded, so the record is independent of the buffer), for
`send_to` the (bytes, address) pair, for `set_read_timeout` the duration —
the socket-factory mock appends `make`'s address argument, and the
free-port-factory mock records nothing: its state after `make` is just the
tail of its result queue. -/
theorem c6_recording_per_operation
    (s : UdpSocketMock) (buf buf2 bufS : List Nat) (addr addrF : SocketAddr)
    (dur : Option Duration) (f : UdpSocketFactoryMock)
    (p : FreePortFactoryMock) :
    (step s (.recvFrom buf)).1.recvFromParams = s.recvFromParams ++ [()]
    ∧ (step s (.recvFrom buf)).1.recvFromParams
        = (step s (.recvFrom buf2)).1.recvFromParams
    ∧ (step s (.sendTo bufS addr)).1.sendToParams
        = s.sendToParams ++ [(bufS, addr)]
    ∧ (step s (.setReadTimeout dur)).1.setReadTimeoutParams
        = s.setReadTimeoutParams ++ [dur]
    ∧ (f.make addrF).1.makeParams = f.makeParams ++ [addrF]
    ∧ p.make.1 = ⟨p.makeResults.tail⟩ := by
  refine ⟨step_recvFromParams s buf, ?_, step_sendToParams s bufS addr,
    step_setReadTimeoutParams s dur, make_makeParams f addrF, ?_⟩
  · rw [step_recvFromParams s buf, step_recvFromParams s buf2]
  · cases p with
    | mk q =>
        cases q with
        | nil => simp [FreePortFactoryMock.make]
        | cons a rest => simp [FreePortFactoryMock.make]

/-- C7: `make` on the socket-factory double records the address and returns
`Ok` wrapping the front queued socket double when that entry is a success,
and exactly the queued failure when it is a failure; in both cases the rest
of the queue is kept and no OS bind occurs (the model has no bind). -/
theorem c7_factory_make_propagates
    (f g : UdpSocketFactoryMock) (addr addr2 : SocketAddr) (m : UdpSocketMock)
    (e : IoError) (rest rest2 : List (IoResult UdpSocketMock))
    (hok : f.makeResults = .ok m :: rest)
    (herr : g.makeResults = .error e :: rest2) :
    f.make addr = (⟨f.makeParams ++ [addr], rest⟩, some (.ok m))
    ∧ g.make addr2 = (⟨g.makeParams ++ [addr2], rest2⟩, some (.error e)) := by
  constructor <;> simp [UdpSocketFactoryMock.make, hok, herr]

/-- C7 witness: one success-queued and one failure-queued factory. -/
theorem c7_factory_make_propagates_witness :
    (UdpSocketFactoryMock.new.makeResult (.ok c6mock)).make addrA
      = (⟨[addrA], []⟩, some (.ok c6mock))
    ∧ (UdpSocketFactoryMock.new.makeResult (.error ⟨11⟩)).make addr9999
      = (⟨[addr9999], []⟩, some (.error ⟨11⟩)) := by
  have h := c7_factory_make_propagates
    (UdpSocketFactoryMock.new.makeResult (.ok c6mock))
    (UdpSocketFactoryMock.new.makeResult (.error ⟨11⟩))
    addrA addr9999 c6mock ⟨11⟩ [] [] rfl rfl
  exact h

/-- C8: each of the real adapter's three operations is a direct pass-through
to the identically-named operation of its single wrapped OS UDP handle, with
unchanged arguments and results. -/
theorem c8_real_adapter_passthrough (d : UdpSocket) (buf : List Nat)
    (addr : SocketAddr) (dur : Option Duration) :
    (UdpSocketReal.mk d).recvFrom buf = d.recvFrom buf
    ∧ (UdpSocketReal.mk d).sendTo buf addr = d.sendTo buf addr
    ∧ (UdpSocketReal.mk d).setReadTimeout dur = d.setReadTimeout dur :=
  ⟨rfl, rfl, rfl⟩

/-- C9: a scripted `recv_from` whose front queued outcome is an error still
copies the queued payload into the caller's buffer before returning that
error: the copy loop runs before the result is inspected. -/
theorem c9_recv_error_still_copies
    (s : UdpSocketMock) (e : IoError) (bytes : List Nat)
    (rest : List (IoResult (Nat × SocketAddr) × List Nat)) (buf : List Nat)
    (hq : s.recvFromResults = (.error e, bytes) :: rest)
    (hlen : bytes.length ≤ buf.length) :
    ∃ out, (step s (.recvFrom buf)).2 = some (.recvRes (.error e) out)
      ∧ (∀ i, i < bytes.length → out[i]? = bytes[i]?)
      ∧ (∀ i, bytes.length ≤ i → out[i]? = buf[i]?) := by
  obtain ⟨out, hw, _, hlow, hmid, hhigh⟩ := writeAll_some bytes 0 buf (by omega)
  refine ⟨out, by simp [step, hq, hw], ?_, ?_⟩
  · intro i hi
    simpa using hmid i (Nat.zero_le i) (by omega)
  · intro i hi
    exact hhigh i (by omega)

/-- C9 witness: a scripted error with payload [7] into buffer [0] returns
the error with the buffer now holding [7], not left unchanged. -/
theorem c9_recv_error_still_copies_witness :
    ∃ out,
      (step (UdpSocketMock.new.recvFromResult (.error ⟨9⟩) [7])
        (.recvFrom [0])).2 = some (.recvRes (.error ⟨9⟩) out)
      ∧ (∀ i, i < [7].length → out[i]? = [7][i]?)
      ∧ (∀ i, [7].length ≤ i → out[i]? = [0][i]?) :=
  c9_recv_error_still_copies (UdpSocketMock.new.recvFromResult (.error ⟨9⟩) [7])
    ⟨9⟩ [7] [] [0] rfl (by decide)

/-- C10: in every scripted operation that has a parameter-capture sink, the
capture is appended before the result queue is consulted: any invocation
grows the sink by exactly one entry, and in particular an invocation that
panics on an empty result queue (returning no value) has still recorded its
arguments. -/
theorem c10_capture_precedes_queue
    (s : UdpSocketMock) (buf bufS : List Nat) (addr addrF : SocketAddr)
    (dur : Option Duration) (f : UdpSocketFactoryMock) :
    ((step s (.recvFrom buf)).1.recvFromParams.length
        = s.recvFromParams.length + 1
      ∧ (step s (.sendTo bufS addr)).1.sendToParams.length
        = s.sendToParams.length + 1
      ∧ (step s (.setReadTimeout dur)).1.setReadTimeoutParams.length
        = s.setReadTimeoutParams.length + 1
      ∧ (f.make addrF).1.makeParams.length = f.makeParams.length + 1)
    ∧ (s.sendToResults = [] →
        (step s (.sendTo bufS addr)).2 = none
        ∧ (step s (.sendTo bufS addr)).1.sendToParams
          = s.sendToParams ++ [(bufS, addr)])
    ∧ (f.makeResults = [] →
        (f.make addrF).2 = none
        ∧ (f.make addrF).1.makeParams = f.makeParams ++ [addrF]) := by
  refine ⟨⟨?_, ?_, ?_, ?_⟩, ?_, ?_⟩
  · rw [step_recvFromParams]; simp
  · rw [step_sendToParams]; simp
  · rw [step_setReadTimeoutParams]; simp
  · rw [make_makeParams]; simp
  · intro hs
    exact ⟨by simp [step, hs], step_sendToParams s bufS addr⟩
  · intro hf
    exact ⟨by simp [UdpSocketFactoryMock.make, hf], make_makeParams f addrF⟩

/-- C10 witness: on fresh doubles with empty queues, a `send_to` and a
factory `make` panic yet still grow their sinks by one recorded entry. -/
theorem c10_capture_precedes_queue_witness :
    ((step UdpSocketMock.new (.recvFrom [0])).1.recvFromParams.length
        = UdpSocketMock.new.recvFromParams.length + 1
      ∧ (step UdpSocketMock.new (.sendTo [1] addrA)).1.sendToParams.length
        = UdpSocketMock.new.sendToParams.length + 1
      ∧ (step UdpSocketMock.new
            (.setReadTimeout (some 30))).1.setReadTimeoutParams.length
        = UdpSocketMock.new.setReadTimeoutParams.length + 1
      ∧ (UdpSocketFactoryMock.new.make addrA).1.makeParams.length
        = UdpSocketFactoryMock.new.makeParams.length + 1)
    ∧ (UdpSocketMock.new.sendToResults = [] →
        (step UdpSocketMock.new (.sendTo [1] addrA)).2 = none
        ∧ (step UdpSocketMock.new (.sendTo [1] addrA)).1.sendToParams
          = UdpSocketMock.new.sendToParams ++ [([1], addrA)])
    ∧ (UdpSocketFactoryMock.new.makeResults = [] →
        (UdpSocketFactoryMock.new.make addrA).2 = none
        ∧ (UdpSocketFactoryMock.new.make addrA).1.makeParams
          = UdpSocketFactoryMock.new.makeParams ++ [addrA]) :=
  c10_capture_precedes_queue UdpSocketMock.new [0] [1] addrA addrA (some 30)
    UdpSocketFactoryMock.new

end Automap
